import Mathlib

/-!
Formal model of `dtu_data.py` from MMM-HoymilesPVMonitor.

The script maintains a JSON history of PV telemetry entries.  Each cycle it
prunes entries older than 24 hours (`prune_old_entries`), detects a calendar
day change against the last retained entry (`is_new_day`, inlined in `main`,
lines 120–129), and reconciles the freshly queried sample (possibly absent)
with the last entry into exactly one new entry (`main`, lines 131–176,
modelled here as `reconcile`).

Numeric modelling: energy values are rationals (the script stores decimal
numbers rounded to two places; the reconciliation logic itself only copies and
compares them), power is an integer (the script stores `round(power)`).
Timestamps are strings parsed with Python's
`datetime.strptime(s, "%Y-%m-%d %H:%M")`, modelled by `parse_timestamp`
following CPython's `_strptime` regular expressions for the directives
`%Y %m %d %H %M` (whitespace in the format matches one or more whitespace
characters; the full string must be consumed) together with the range checks
of the `datetime` constructor (year at least 1, day within the month).
-/

/-- A calendar date, as produced by Python's `datetime.date()`. -/
structure Date where
  year : Nat
  month : Nat
  day : Nat
deriving DecidableEq

/-- A parsed minute-resolution datetime, the successful result of
`datetime.strptime(s, "%Y-%m-%d %H:%M")`. -/
structure DateTime where
  year : Nat
  month : Nat
  day : Nat
  hour : Nat
  minute : Nat
deriving DecidableEq

/-- One history entry as stored in `history_daily.json`.  `timestamp` and
`power` are always present in entries the script writes; the two energy fields
are `Option` because the script only ever reads them from the loaded JSON
defensively via `dict.get` with a default (lines 138, 145–147, 157–158). -/
structure Entry where
  timestamp : String
  power : Int
  energy_daily : Option ℚ
  energy_total : Option ℚ
deriving DecidableEq

/-- A decoded DTU sample: the dict built by `get_dtu_data` (lines 64–69); all
four keys are always present there. -/
structure Sample where
  timestamp : String
  power : Int
  energy_daily : ℚ
  energy_total : ℚ
deriving DecidableEq

/-- Numeric value of a decimal digit character. -/
def digitVal (c : Char) : Nat := c.toNat - '0'.toNat

/-- ASCII whitespace, as matched by the regex class `\s` on the timestamp
strings (which are ASCII). -/
def isWS (c : Char) : Bool :=
  c == ' ' || c == '\t' || c == '\n' || c == '\r' || c == '\x0b' || c == '\x0c'

/-- Read exactly four digits (the `%Y` directive, regex `\d\d\d\d`). -/
def readYear : List Char → Option (Nat × List Char)
  | a :: b :: c :: d :: rest =>
      if a.isDigit && b.isDigit && c.isDigit && d.isDigit then
        some (1000 * digitVal a + 100 * digitVal b + 10 * digitVal c + digitVal d, rest)
      else none
  | _ => none

/-- Read a one- or two-digit number field (`%m`, `%d`, `%H`, `%M`).  The two
digit alternative is taken when its value satisfies `validTwo`, otherwise a
single digit satisfying `validOne`; in the format `%Y-%m-%d %H:%M` every such
field is followed by a non-digit or the end of the string, so this
deterministic choice coincides with the backtracking alternation of CPython's
field regexes (for example `1[0-2]|0[1-9]|[1-9]` for `%m`). -/
def readNum (validTwo validOne : Nat → Bool) : List Char → Option (Nat × List Char)
  | a :: b :: rest =>
      if a.isDigit && b.isDigit && validTwo (10 * digitVal a + digitVal b) then
        some (10 * digitVal a + digitVal b, rest)
      else if a.isDigit && validOne (digitVal a) then
        some (digitVal a, b :: rest)
      else none
  | [a] => if a.isDigit && validOne (digitVal a) then some (digitVal a, []) else none
  | [] => none

/-- Read one expected literal character of the format. -/
def readLit (ch : Char) : List Char → Option (List Char)
  | a :: rest => if a == ch then some rest else none
  | [] => none

/-- Read one or more whitespace characters (a literal space in a `strptime`
format is compiled to the regex `\s+`).  The following directive `%H` starts
with a digit, so the greedy scan coincides with the regex. -/
def readWS : List Char → Option (List Char)
  | a :: rest => if isWS a then some (rest.dropWhile isWS) else none
  | [] => none

/-- Gregorian leap-year predicate, as in Python's `calendar.isleap`. -/
def isLeap (y : Nat) : Bool := (y % 4 == 0 && y % 100 != 0) || y % 400 == 0

/-- Number of days in a month, used by the `datetime` constructor to validate
the day field. -/
def daysInMonth (y m : Nat) : Nat :=
  if m = 2 then (if isLeap y then 29 else 28)
  else if m = 4 ∨ m = 6 ∨ m = 9 ∨ m = 11 then 30
  else 31

/-- Model of `datetime.strptime(s, "%Y-%m-%d %H:%M")`: returns the parsed
datetime, or `none` where Python raises `ValueError` (pattern mismatch,
unconverted trailing data, or an invalid calendar day / year 0 rejected by the
`datetime` constructor). -/
def parse_timestamp (s : String) : Option DateTime := do
  let cs := s.toList
  let (y, cs) ← readYear cs
  let cs ← readLit '-' cs
  let (m, cs) ← readNum (fun v => 1 ≤ v && v ≤ 12) (fun v => 1 ≤ v) cs
  let cs ← readLit '-' cs
  let (d, cs) ← readNum (fun v => 1 ≤ v && v ≤ 31) (fun v => 1 ≤ v) cs
  let cs ← readWS cs
  let (h, cs) ← readNum (fun v => v ≤ 23) (fun _ => true) cs
  let cs ← readLit ':' cs
  let (mi, cs) ← readNum (fun v => v ≤ 59) (fun _ => true) cs
  if cs = [] ∧ 1 ≤ y ∧ d ≤ daysInMonth y m then
    some ⟨y, m, d, h, mi⟩
  else none

/-- Days of completed months before month `m` in year `y`. -/
def daysBeforeMonth (y m : Nat) : Nat :=
  (List.range (m - 1)).foldl (fun acc i => acc + daysInMonth y (i + 1)) 0

/-- The calendar date of a datetime (`datetime.date()`). -/
def DateTime.date (dt : DateTime) : Date := ⟨dt.year, dt.month, dt.day⟩

/-- Chronological encoding of a datetime as minutes from the proleptic
Gregorian epoch (rata die), so that Python's `datetime` comparison is the
numeric comparison of this value. -/
def DateTime.toMinutes (dt : DateTime) : Nat :=
  let y1 := dt.year - 1
  let days := 365 * y1 + y1 / 4 - y1 / 100 + y1 / 400
      + daysBeforeMonth dt.year dt.month + (dt.day - 1)
  (days * 24 + dt.hour) * 60 + dt.minute

/-- Model of `prune_old_entries` (lines 93–109).  The current time `now` is
passed explicitly, in minutes on the same scale as `DateTime.toMinutes` and
rational to allow sub-minute resolution (the script calls `datetime.now()`
inside the function; `timedelta(hours=24)` is 1440 minutes).  An entry is kept
when its timestamp parses and is strictly newer than the cutoff; a parse
failure is swallowed by the `except: pass` and the entry dropped. -/
def prune_old_entries (history : List Entry) (now : ℚ) : List Entry :=
  let cutoff : ℚ := now - 24 * 60
  history.filter fun entry =>
    match parse_timestamp entry.timestamp with
    | some dt => decide ((dt.toMinutes : ℚ) > cutoff)
    | none => false

/-- Model of the day-change detection in `main` (lines 120–129): the last
entry's timestamp is parsed (`last_date`, `None` on failure), and
`new_day = (last_date is not None) and (now.date() != last_date)`. -/
def is_new_day (last_entry : Option Entry) (nowDate : Date) : Bool :=
  match last_entry with
  | none => false
  | some le =>
      match parse_timestamp le.timestamp with
      | none => false
      | some dt => decide (nowDate ≠ dt.date)

/-- Model of the entry construction in `main` (lines 131–176): given the DTU
query result (`None` on failure), the last retained entry, the `new_day` flag
and the current timestamp string, produce the single entry appended to the
history.  Mirrors the Python branch for branch, including the `dict.get`
defaults on the last entry. -/
def reconcile (result : Option Sample) (last_entry : Option Entry)
    (new_day : Bool) (now_ts : String) : Entry :=
  match result with
  | some r =>
      if new_day then
        -- lines 133–138: reset daily, force the carried-over total
        { timestamp := r.timestamp, power := r.power
          energy_daily := some 0
          energy_total := some (match last_entry with
            | some le => le.energy_total.getD r.energy_total
            | none => r.energy_total) }
      else
        match last_entry with
        | some le =>
            -- lines 140–147: night fallback, both carries guarded by power == 0
            if r.power = 0 then
              { timestamp := r.timestamp, power := r.power
                energy_daily :=
                  some (if r.energy_daily = 0 then le.energy_daily.getD 0 else r.energy_daily)
                energy_total :=
                  some (if r.energy_total < le.energy_total.getD 0 then
                          le.energy_total.getD r.energy_total
                        else r.energy_total) }
            else
              { timestamp := r.timestamp, power := r.power
                energy_daily := some r.energy_daily, energy_total := some r.energy_total }
        | none =>
            { timestamp := r.timestamp, power := r.power
              energy_daily := some r.energy_daily, energy_total := some r.energy_total }
  | none =>
      match last_entry with
      | some le =>
          -- lines 155–165: fallback from the last entry
          { timestamp := now_ts, power := 0
            energy_daily := some (if new_day then 0 else le.energy_daily.getD 0)
            energy_total := some (le.energy_total.getD 0) }
      | none =>
          -- lines 167–175: cold start, all zeros
          { timestamp := now_ts, power := 0, energy_daily := some 0, energy_total := some 0 }

/-- Spec-side retention condition (section 4.2 / section 8 of the spec): the
entry's timestamp parses and lies strictly after `now` minus 24 hours. -/
def retainedBySpec (now : ℚ) (e : Entry) : Bool :=
  match parse_timestamp e.timestamp with
  | some dt => decide ((dt.toMinutes : ℚ) > now - 24 * 60)
  | none => false

/-- C6: `prune_old_entries` keeps exactly the subsequence of entries whose
timestamp parses and is strictly after `now` minus 24 hours, in the same
relative order (a sublist), dropping unparsable timestamps; it coincides with
the spec-side filter `retainedBySpec`. -/
theorem prune_retention_exact (H : List Entry) (now : ℚ) :
    prune_old_entries H now = H.filter (retainedBySpec now) ∧
    (prune_old_entries H now).Sublist H ∧
    ∀ e, e ∈ prune_old_entries H now ↔
      e ∈ H ∧ ∃ dt, parse_timestamp e.timestamp = some dt ∧
        (dt.toMinutes : ℚ) > now - 24 * 60 := by
  have hchar : ∀ e : Entry, (retainedBySpec now e = true) ↔
      ∃ dt, parse_timestamp e.timestamp = some dt ∧ (dt.toMinutes : ℚ) > now - 24 * 60 := by
    intro e
    unfold retainedBySpec
    cases h : parse_timestamp e.timestamp with
    | none => simp
    | some dt => simp
  have heq : prune_old_entries H now = H.filter (retainedBySpec now) := rfl
  refine ⟨heq, ?_, ?_⟩
  · rw [heq]; exact List.filter_sublist H
  · intro e
    rw [heq, List.mem_filter, hchar e]

/-- C9: pruning is idempotent — pruning an already-pruned history with the
same `now` returns it unchanged. -/
theorem prune_idempotent (H : List Entry) (now : ℚ) :
    prune_old_entries (prune_old_entries H now) now = prune_old_entries H now := by
  show List.filter _ (List.filter _ H) = List.filter _ H
  exact List.filter_eq_self.mpr fun a ha => (List.mem_filter.mp ha).2

/-- C8: `is_new_day` is true iff a last entry exists, its timestamp parses,
and its calendar date differs from the current date; in particular it is
false with no last entry and false on an unparsable timestamp. -/
theorem is_new_day_iff (last_entry : Option Entry) (nowDate : Date) :
    is_new_day last_entry nowDate = true ↔
      ∃ le dt, last_entry = some le ∧ parse_timestamp le.timestamp = some dt ∧
        dt.date ≠ nowDate := by
  cases last_entry with
  | none => simp [is_new_day]
  | some le =>
      cases h : parse_timestamp le.timestamp with
      | none => simp [is_new_day, h]
      | some dt =>
          simp [is_new_day, h]
          exact ⟨fun hne => Ne.symm hne, fun hne => Ne.symm hne⟩

/-- C4: whenever `new_day` is true, the produced entry's `energy_daily` is
exactly 0, whether the sample is present (whatever it reported) or absent. -/
theorem new_day_daily_reset (result : Option Sample) (last_entry : Option Entry)
    (ts : String) :
    (reconcile result last_entry true ts).energy_daily = some 0 := by
  cases result <;> cases last_entry <;> simp [reconcile]

/-- C5: a present sample on a new-day cycle yields daily energy 0, the last
entry's (present) total energy, and power and timestamp from the sample. -/
theorem new_day_total_carry (r : Sample) (le : Entry) (t : ℚ) (ts : String)
    (ht : le.energy_total = some t) :
    reconcile (some r) (some le) true ts =
      { timestamp := r.timestamp, power := r.power
        energy_daily := some 0, energy_total := some t } := by
  simp [reconcile, ht]

/-- Witness for C5, the spec's Scenario A: last entry
`{2024-06-01 23:58, power 0, daily 12.3, total 4.50}`, sample
`{2024-06-02 00:02, power 5, daily 0.1, total 4.50}`, new day; the output is
`{2024-06-02 00:02, power 5, daily 0.0, total 4.50}`. -/
theorem new_day_total_carry_scenarioA :
    reconcile
        (some { timestamp := "2024-06-02 00:02", power := 5
                energy_daily := 1/10, energy_total := 9/2 })
        (some { timestamp := "2024-06-01 23:58", power := 0
                energy_daily := some (123/10), energy_total := some (9/2) })
        true "2024-06-02 00:02" =
      { timestamp := "2024-06-02 00:02", power := 5
        energy_daily := some 0, energy_total := some (9/2) } :=
  new_day_total_carry _ _ _ _ rfl

/-- C3: a present sample on a same-day cycle with power 0 and reported daily
energy 0, with a last entry whose daily energy is present, carries the last
entry's daily energy and records power 0 and the sample's timestamp. -/
theorem night_zero_daily_carry (r : Sample) (le : Entry) (d : ℚ) (ts : String)
    (hp : r.power = 0) (hd : r.energy_daily = 0) (hld : le.energy_daily = some d) :
    (reconcile (some r) (some le) false ts).power = 0 ∧
    (reconcile (some r) (some le) false ts).energy_daily = some d ∧
    (reconcile (some r) (some le) false ts).timestamp = r.timestamp := by
  simp [reconcile, hp, hd, hld]

/-- Witness for C3, the spec's Scenario B: last entry total 4.50 (daily 3.3),
same-day sample `power 0, daily 0, total 4.49`; daily is carried to 3.3, total
carried to 4.50, power stays 0. -/
theorem night_zero_daily_carry_scenarioB :
    reconcile
        (some { timestamp := "2024-06-02 21:30", power := 0
                energy_daily := 0, energy_total := 449/100 })
        (some { timestamp := "2024-06-02 21:25", power := 12
                energy_daily := some (33/10), energy_total := some (9/2) })
        false "2024-06-02 21:30" =
      { timestamp := "2024-06-02 21:30", power := 0
        energy_daily := some (33/10), energy_total := some (9/2) } ∧
    (reconcile
        (some { timestamp := "2024-06-02 21:30", power := 0
                energy_daily := 0, energy_total := 449/100 })
        (some { timestamp := "2024-06-02 21:25", power := 12
                energy_daily := some (33/10), energy_total := some (9/2) })
        false "2024-06-02 21:30").energy_daily = some (33/10) := by
  constructor
  · norm_num [reconcile]
  · exact (night_zero_daily_carry _ _ _ _ rfl rfl rfl).2.1

/-- C1 counterexample: with a prior entry (total 4), a same-day sample with
nonzero power reporting a lower total (3.5) is recorded as reported, so the
new entry's `energy_total` is strictly below the prior entry's — the
unconditional monotonicity stated by the claim fails on the code. -/
theorem energy_total_decrease_cex :
    (reconcile
        (some { timestamp := "2024-07-10 12:05", power := 40
                energy_daily := 3/2, energy_total := 7/2 })
        (some { timestamp := "2024-07-10 12:00", power := 35
                energy_daily := some (7/5), energy_total := some 4 })
        false "2024-07-10 12:05").energy_total = some (7/2) ∧
    (7/2 : ℚ) < 4 := by
  constructor
  · norm_num [reconcile]
  · norm_num

/-- C1 amended: with a prior entry whose `energy_total` is present, the
produced entry's total is `some` value at least the prior total whenever the
sample is absent, or the cycle is a new day, or the sample's power is 0; a
present same-day sample with nonzero power may record a decrease. -/
theorem energy_total_monotone_amended (result : Option Sample) (le : Entry)
    (t : ℚ) (new_day : Bool) (ts : String)
    (ht : le.energy_total = some t)
    (hcase : result = none ∨ new_day = true ∨ ∃ r, result = some r ∧ r.power = 0) :
    (reconcile result (some le) new_day ts).energy_total
      = some ((reconcile result (some le) new_day ts).energy_total.getD 0) ∧
    t ≤ (reconcile result (some le) new_day ts).energy_total.getD 0 := by
  rcases hcase with hc | hc | ⟨r, hc, hp⟩
  · subst hc; simp [reconcile, ht]
  · subst hc
    cases result with
    | none => simp [reconcile, ht]
    | some r => simp [reconcile, ht]
  · subst hc
    cases new_day with
    | true => simp [reconcile, ht]
    | false =>
        by_cases hlt : r.energy_total < t
        · simp [reconcile, ht, hp, hlt]
        · simp [reconcile, ht, hp, hlt]
          exact le_of_not_lt hlt

/-- Witness for the amended C1: a same-day zero-power sample reporting
total 1 against a prior total 2 yields an entry whose total is still at
least 2. -/
theorem energy_total_monotone_amended_witness :
    (reconcile
        (some { timestamp := "2024-07-10 22:00", power := 0
                energy_daily := 0, energy_total := 1 })
        (some { timestamp := "2024-07-10 21:55", power := 40
                energy_daily := some 1, energy_total := some 2 })
        false "2024-07-10 22:00").energy_total
      = some ((reconcile
          (some { timestamp := "2024-07-10 22:00", power := 0
                  energy_daily := 0, energy_total := 1 })
          (some { timestamp := "2024-07-10 21:55", power := 40
                  energy_daily := some 1, energy_total := some 2 })
          false "2024-07-10 22:00").energy_total.getD 0) ∧
    (2 : ℚ) ≤ (reconcile
        (some { timestamp := "2024-07-10 22:00", power := 0
                energy_daily := 0, energy_total := 1 })
        (some { timestamp := "2024-07-10 21:55", power := 40
                energy_daily := some 1, energy_total := some 2 })
        false "2024-07-10 22:00").energy_total.getD 0 :=
  energy_total_monotone_amended _ _ 2 false _ rfl (Or.inr (Or.inr ⟨_, rfl, rfl⟩))

/-- C2 counterexample: on a same-day cycle with a last entry of total 4.50, a
sample with nonzero power (5) reporting the lower total 4.49 keeps its own
reported total — the carry-over does not apply with nonzero power, refuting
the claimed independence from rule 2's `power == 0` condition. -/
theorem regression_carry_power_cex :
    (reconcile
        (some { timestamp := "2024-06-02 12:00", power := 5
                energy_daily := 21/10, energy_total := 449/100 })
        (some { timestamp := "2024-06-02 11:55", power := 30
                energy_daily := some 2, energy_total := some (9/2) })
        false "2024-06-02 12:00").energy_total = some (449/100) ∧
    (449/100 : ℚ) < 9/2 ∧
    (reconcile
        (some { timestamp := "2024-06-02 12:00", power := 5
                energy_daily := 21/10, energy_total := 449/100 })
        (some { timestamp := "2024-06-02 11:55", power := 30
                energy_daily := some 2, energy_total := some (9/2) })
        false "2024-06-02 12:00").energy_total ≠ some ((9/2 : ℚ)) := by
  refine ⟨by norm_num [reconcile], by norm_num, ?_⟩
  norm_num [reconcile]

/-- C2 amended: on a same-day cycle, when the sample's power is 0 and its
reported total is below the last entry's (present) total, the produced entry
carries the last entry's total; this holds with no condition on the sample's
daily energy (independent of rule 2's daily-energy test), but the `power == 0`
guard is shared with rule 2. -/
theorem regression_carry_power_zero (r : Sample) (le : Entry) (t : ℚ) (ts : String)
    (hp : r.power = 0) (ht : le.energy_total = some t) (hreg : r.energy_total < t) :
    (reconcile (some r) (some le) false ts).energy_total = some t := by
  simp [reconcile, hp, ht, hreg]

/-- Witness for the amended C2: zero power, nonzero daily energy 2.5 (rule 2
does not fire), total 3 below the last entry's 7: the total is carried. -/
theorem regression_carry_power_zero_witness :
    (reconcile
        (some { timestamp := "2024-08-01 05:00", power := 0
                energy_daily := 5/2, energy_total := 3 })
        (some { timestamp := "2024-08-01 04:55", power := 0
                energy_daily := some (5/2), energy_total := some 7 })
        false "2024-08-01 05:00").energy_total = some 7 :=
  regression_carry_power_zero _ _ _ _ rfl rfl (by norm_num)

/-- C7: with the sample absent, a last entry with both energy fields present
yields the fallback entry at the current timestamp with power 0, daily energy
0 on a new day and otherwise the last entry's daily energy, and the last
entry's total energy; with no last entry at all, the all-zero entry at the
current timestamp. -/
theorem absent_fallback_entries (le : Entry) (d t : ℚ) (new_day : Bool) (ts : String)
    (hd : le.energy_daily = some d) (ht : le.energy_total = some t) :
    reconcile none (some le) new_day ts =
      { timestamp := ts, power := 0
        energy_daily := some (if new_day then 0 else d), energy_total := some t } ∧
    reconcile none none new_day ts =
      { timestamp := ts, power := 0, energy_daily := some 0, energy_total := some 0 } := by
  constructor
  · simp [reconcile, hd, ht]
  · rfl

/-- Witness for C7, the spec's Scenarios C and D: absent sample with last
entry `daily 8.0, total 3.2` on a same-day cycle gives
`{power 0, daily 8.0, total 3.2}`; absent sample with no history gives
`{power 0, daily 0, total 0}`. -/
theorem absent_fallback_scenarioCD :
    reconcile none
        (some { timestamp := "2024-06-02 13:00", power := 0
                energy_daily := some 8, energy_total := some (16/5) })
        false "2024-06-02 13:05" =
      { timestamp := "2024-06-02 13:05", power := 0
        energy_daily := some 8, energy_total := some (16/5) } ∧
    reconcile none none false "2024-06-02 13:05" =
      { timestamp := "2024-06-02 13:05", power := 0
        energy_daily := some 0, energy_total := some 0 } := by
  simpa using absent_fallback_entries
    { timestamp := "2024-06-02 13:00", power := 0
      energy_daily := some 8, energy_total := some (16/5) }
    8 (16/5) false "2024-06-02 13:05" rfl rfl

/-- C10: a last entry lacking both energy fields never breaks a cycle (the
model is a total function); in the night fallback a missing daily energy is
carried as 0 and a missing total makes the comparison use 0 so the sample's
own total is kept, in the no-sample fallback both missing fields become 0,
and in the new-day branch a missing total on the last entry leaves the
sample's reported total in place. -/
theorem missing_last_fields_defaults (r : Sample) (le : Entry) (ts : String)
    (hd : le.energy_daily = none) (ht : le.energy_total = none) :
    (r.power = 0 → r.energy_daily = 0 →
      (reconcile (some r) (some le) false ts).energy_daily = some 0) ∧
    (r.power = 0 →
      (reconcile (some r) (some le) false ts).energy_total = some r.energy_total) ∧
    reconcile none (some le) false ts =
      { timestamp := ts, power := 0, energy_daily := some 0, energy_total := some 0 } ∧
    (reconcile (some r) (some le) true ts).energy_total = some r.energy_total := by
  refine ⟨?_, ?_, ?_, ?_⟩
  · intro hp hdz
    simp [reconcile, hp, hdz, hd]
  · intro hp
    by_cases hlt : r.energy_total < (0 : ℚ)
    · simp [reconcile, hp, ht, hlt]
    · simp [reconcile, hp, ht, hlt]
  · simp [reconcile, hd, ht]
  · simp [reconcile, ht]

/-- Witness for C10: a last entry with both energy fields missing, against a
zero-power zero-daily sample with total 6: the night-fallback daily becomes 0
and the total stays 6, the no-sample fallback is all zeros, and the new-day
branch keeps the sample's total 6. -/
theorem missing_last_fields_defaults_witness :
    (reconcile
        (some { timestamp := "2024-06-02 10:05", power := 0
                energy_daily := 0, energy_total := 6 })
        (some { timestamp := "2024-06-02 10:00", power := 0
                energy_daily := none, energy_total := none })
        false "2024-06-02 10:05").energy_daily = some 0 ∧
    (reconcile
        (some { timestamp := "2024-06-02 10:05", power := 0
                energy_daily := 0, energy_total := 6 })
        (some { timestamp := "2024-06-02 10:00", power := 0
                energy_daily := none, energy_total := none })
        false "2024-06-02 10:05").energy_total = some 6 ∧
    reconcile none
        (some { timestamp := "2024-06-02 10:00", power := 0
                energy_daily := none, energy_total := none })
        false "2024-06-02 10:05" =
      { timestamp := "2024-06-02 10:05", power := 0
        energy_daily := some 0, energy_total := some 0 } ∧
    (reconcile
        (some { timestamp := "2024-06-02 10:05", power := 0
                energy_daily := 0, energy_total := 6 })
        (some { timestamp := "2024-06-02 10:00", power := 0
                energy_daily := none, energy_total := none })
        true "2024-06-02 10:05").energy_total = some 6 := by
  obtain ⟨h1, h2, h3, h4⟩ := missing_last_fields_defaults
    { timestamp := "2024-06-02 10:05", power := 0
      energy_daily := 0, energy_total := 6 }
    { timestamp := "2024-06-02 10:00", power := 0
      energy_daily := none, energy_total := none }
    "2024-06-02 10:05" rfl rfl
  exact ⟨h1 rfl rfl, h2 rfl, h3, h4⟩
